import Mathlib

/-!
Shallow embedding of the cruise-control PID core of this repository,
translated from src/pid_controller/rust-uprotocol/src/pid_controller.rs.
The f64 arithmetic of the source is modelled exactly over the rationals;
every decimal literal below is the decimal written in the source.
Strings that the source builds with `format!` (interpolating numbers)
are modelled by their fixed text part, since no verified property
depends on the interpolated digits.
-/

set_option linter.unusedVariables false

/-- Point of a LiDAR detection, from uprotocol_handler.rs (struct PointCoords). -/
structure PointCoords where
  x : ℚ
  y : ℚ
  z : ℚ
  deriving DecidableEq

/-- One LiDAR detection, from uprotocol_handler.rs (struct LidarDetection). -/
structure LidarDetection where
  intensity : ℚ
  point : PointCoords
  deriving DecidableEq

/-- A LiDAR frame, from uprotocol_handler.rs (struct LidarMeasurement). -/
structure LidarMeasurement where
  channel_count : Nat
  detections : List LidarDetection
  horizontal_angle : ℚ
  is_empty : Bool
  deriving DecidableEq

/-- Output record of one controller step, from pid_controller.rs (struct PIDResult). -/
structure PIDResult where
  acceleration : ℚ
  throttle : ℚ
  brake : ℚ
  emergency_brake_engaged : Bool
  emergency_reason : Option String
  manual_brake_detected : Bool
  cruise_should_disengage : Bool
  cruise_can_reengage : Bool
  deriving DecidableEq

/-- Actuator mapping, from PIDResult::acceleration_to_throttle_brake
(pid_controller.rs lines 82-112). Rust `x.min(1.0).max(0.0)` is
`max (min x 1) 0`. -/
def PIDResult.acceleration_to_throttle_brake (acceleration : ℚ) : ℚ × ℚ :=
  if acceleration > 0 then
    let throttle :=
      if acceleration ≤ 0.5 then
        acceleration * 0.4
      else if acceleration ≤ 1.5 then
        0.2 + (acceleration - 0.5) * 0.4
      else
        0.6 + (acceleration - 1.5) * 0.267
    (max (min throttle 1) 0, 0)
  else
    let abs_decel := -acceleration
    let brake :=
      if abs_decel ≤ 0.5 then
        abs_decel * 0.3
      else if abs_decel ≤ 2.0 then
        0.15 + (abs_decel - 0.5) * 0.233
      else
        0.5 + (abs_decel - 2.0) * 0.083
    (0, max (min brake 1) 0)

/-- PIDResult::new (pid_controller.rs lines 33-45). -/
def PIDResult.new (acceleration : ℚ) : PIDResult :=
  let p := PIDResult.acceleration_to_throttle_brake acceleration
  { acceleration := acceleration
    throttle := p.1
    brake := p.2
    emergency_brake_engaged := false
    emergency_reason := none
    manual_brake_detected := false
    cruise_should_disengage := false
    cruise_can_reengage := false }

/-- PIDResult::emergency (pid_controller.rs lines 47-59). -/
def PIDResult.emergency (acceleration : ℚ) (reason : String) : PIDResult :=
  let p := PIDResult.acceleration_to_throttle_brake acceleration
  { acceleration := acceleration
    throttle := p.1
    brake := p.2
    emergency_brake_engaged := true
    emergency_reason := some reason
    manual_brake_detected := false
    cruise_should_disengage := true
    cruise_can_reengage := false }

/-- PIDResult::manual_brake (pid_controller.rs lines 61-73). -/
def PIDResult.manual_brake (acceleration : ℚ) : PIDResult :=
  let p := PIDResult.acceleration_to_throttle_brake acceleration
  { acceleration := acceleration
    throttle := p.1
    brake := p.2
    emergency_brake_engaged := false
    emergency_reason := none
    manual_brake_detected := true
    cruise_should_disengage := true
    cruise_can_reengage := false }

/-- PIDResult::with_reengage_capability (pid_controller.rs lines 75-78). -/
def PIDResult.with_reengage_capability (r : PIDResult) : PIDResult :=
  { r with cruise_can_reengage := true }

/-- Controller state, from pid_controller.rs (struct PIDController). -/
structure PIDController where
  kp : ℚ
  ki : ℚ
  kd : ℚ
  velocity_error : ℚ
  previous_error : ℚ
  accumulated_error : ℚ
  previous_time : ℚ
  emergency_stop_distance : ℚ
  slow_down_distance : ℚ
  max_braking_acceleration : ℚ
  previous_velocity : ℚ
  manual_brake_threshold : ℚ
  cruise_suspended : Bool
  target_speed_tolerance : ℚ
  deriving DecidableEq

/-- PIDController::new_with_emergency_config (pid_controller.rs lines 139-163). -/
def PIDController.new_with_emergency_config (kp ki kd esd sdd mba : ℚ) : PIDController :=
  { kp := kp
    ki := ki
    kd := kd
    velocity_error := 0
    previous_error := 0
    accumulated_error := 0
    previous_time := 0
    emergency_stop_distance := esd
    slow_down_distance := sdd
    max_braking_acceleration := mba
    previous_velocity := 0
    manual_brake_threshold := -2.0
    cruise_suspended := false
    target_speed_tolerance := 2.0 }

/-- PIDController::new (pid_controller.rs lines 135-137). -/
def PIDController.new (kp ki kd : ℚ) : PIDController :=
  PIDController.new_with_emergency_config kp ki kd 3.0 15.0 (-10.0)

/-- PIDController::reset (pid_controller.rs lines 416-423). -/
def PIDController.reset (c : PIDController) : PIDController :=
  { c with velocity_error := 0
           previous_error := 0
           accumulated_error := 0
           previous_time := 0
           previous_velocity := 0
           cruise_suspended := false }

/-- PIDController::calculate_steering_compensation (pid_controller.rs
lines 400-414); MAX_SPEED_REDUCTION = 0.8, STEERING_SENSITIVITY = 0.3. -/
def PIDController.calculate_steering_compensation (steer_input : ℚ) : ℚ :=
  let abs_steering := |steer_input|
  if abs_steering ≤ 0.3 then
    1
  else
    let reduction_factor := (abs_steering - 0.3) / (1 - 0.3)
    1 - reduction_factor * (1 - 0.8)

/-- The forward-corridor filter applied to a LiDAR point inside the
detection loop of compute (pid_controller.rs lines 278-280), with
PATH_WIDTH = 3.0, MIN_HEIGHT = 0.3, MAX_HEIGHT = 2.5, MAX_RANGE = 30.0. -/
def in_vehicle_path (p : PointCoords) : Bool :=
  decide (p.x > 1.0) && decide (p.x < 30.0) && decide (|p.y| < 3.0 / 2)
    && decide (p.z > 0.3) && decide (p.z < 2.5)

/-- One iteration of the closest-detection loop of compute
(pid_controller.rs lines 275-290): keep the smallest forward distance
(the x coordinate) over corridor detections; `none` plays the role of
the `f64::MAX` sentinel. -/
def closest_step (acc : Option ℚ) (det : LidarDetection) : Option ℚ :=
  if in_vehicle_path det.point then
    match acc with
    | none => some det.point.x
    | some dcur => if det.point.x < dcur then some det.point.x else some dcur
  else acc

/-- The closest-detection loop of compute (pid_controller.rs lines 266-290). -/
def find_closest (l : List LidarDetection) : Option ℚ :=
  l.foldl closest_step none

/-- Text part of the emergency reason built at pid_controller.rs line 309
(the source interpolates the two distances into the message). -/
def emergencyReasonMsg : String :=
  "Obstacle detected at (emergency threshold)"

/-- Text part of the error built at pid_controller.rs line 343 (the
source interpolates the offending times into the message). -/
def negativeDtMsg : String :=
  "Significant negative delta_time"

/-- The obstacle-overlay block of compute (pid_controller.rs lines
261-339): from the current frame it either produces an early-return
result (Sum.inl) or the `modified_desired_velocity` handed to the PID
stage (Sum.inr).  Note line 323 multiplies the raw `desired_velocity`,
not the steering-adjusted one. -/
def obstacle_overlay (c : PIDController)
    (desired_velocity adjusted_desired_velocity current_velocity : ℚ)
    (lidar_data : Option LidarMeasurement) : PIDResult ⊕ ℚ :=
  match lidar_data with
  | none => Sum.inr adjusted_desired_velocity
  | some lidar =>
    if !lidar.is_empty && !lidar.detections.isEmpty then
      match find_closest lidar.detections with
      | none => Sum.inr adjusted_desired_velocity
      | some closest_distance =>
        let velocity_factor := max (current_velocity / 10.0) 1.0
        let dynamic_emergency_distance := c.emergency_stop_distance * velocity_factor
        let dynamic_slow_down_distance := c.slow_down_distance * velocity_factor
        if closest_distance < dynamic_emergency_distance then
          let urgency_factor := 1 - closest_distance / dynamic_emergency_distance
          let emergency_acceleration := c.max_braking_acceleration * max urgency_factor 0.5
          Sum.inl (PIDResult.emergency emergency_acceleration emergencyReasonMsg)
        else if closest_distance < dynamic_slow_down_distance then
          let distance_factor := (closest_distance - dynamic_emergency_distance) /
            (dynamic_slow_down_distance - dynamic_emergency_distance)
          let brake_intensity := 1 - distance_factor
          let modified := desired_velocity * max distance_factor 0.2
          if brake_intensity > 0.5 then
            let gentle_brake := c.max_braking_acceleration * 0.3 * brake_intensity
            Sum.inl (PIDResult.new (max gentle_brake (-1.0)))
          else
            Sum.inr modified
        else
          Sum.inr adjusted_desired_velocity
    else
      Sum.inr adjusted_desired_velocity

/-- The re-engagement condition of compute (pid_controller.rs lines
233-237), evaluated on the state after `previous_time` was updated
(none of the fields it reads were touched by that update). -/
def can_reengage_after (c : PIDController)
    (desired_velocity current_velocity delta_time : ℚ) : Bool :=
  c.cruise_suspended
    && decide (|desired_velocity - current_velocity| ≤ c.target_speed_tolerance)
    && decide (current_velocity > 0)
    && decide ((if delta_time > 0 then (current_velocity - c.previous_velocity) / delta_time else 0) ≥ -0.5)

/-- PIDController::compute_pid (pid_controller.rs lines 357-395).  The
source returns Result but never errs, so the result is returned
directly; the mutated fields are returned as the new state. -/
def PIDController.compute_pid (c : PIDController)
    (desired_velocity current_velocity delta_time : ℚ) : PIDResult × PIDController :=
  if current_velocity > desired_velocity + desired_velocity * 0.15 then
    let speed_excess := current_velocity - desired_velocity
    let gentle_braking := if speed_excess > 2.0 then -1.0 else -speed_excess * 0.8
    (PIDResult.new gentle_braking, c)
  else
    let previous_error := c.velocity_error
    let velocity_error := desired_velocity - current_velocity
    let accumulated_error := c.accumulated_error + velocity_error * delta_time
    let derivative_error := (velocity_error - previous_error) / delta_time
    let acceleration := c.kp * velocity_error + c.ki * accumulated_error
      + c.kd * derivative_error
    let limited_acceleration := min (max acceleration (-1.5)) 1.5
    (PIDResult.new limited_acceleration,
      { c with previous_error := previous_error
               velocity_error := velocity_error
               accumulated_error := accumulated_error })

/-- PIDController::compute (pid_controller.rs lines 198-355).  The
mutated controller is returned alongside the Result; BRAKE_THRESHOLD is
the source constant 0.1. -/
def PIDController.compute (c : PIDController)
    (desired_velocity current_velocity current_time : ℚ)
    (lidar_data : Option LidarMeasurement)
    (throttle_input steer_input brake_input : ℚ) :
    Except String PIDResult × PIDController :=
  if c.previous_time = 0 then
    (Except.ok (PIDResult.new 0),
      { c with previous_time := current_time, previous_velocity := current_velocity })
  else
    let delta_time := current_time - c.previous_time
    let c1 : PIDController := { c with previous_time := current_time }
    if brake_input > 0.1 then
      (Except.ok (PIDResult.manual_brake (-brake_input * 3.0)),
        { c1 with cruise_suspended := true, previous_velocity := current_velocity })
    else
      let can_reengage := can_reengage_after c1 desired_velocity current_velocity delta_time
      let c2 := if can_reengage then { c1 with cruise_suspended := false } else c1
      if c2.cruise_suspended then
        (Except.ok
          (if can_reengage then (PIDResult.new 0).with_reengage_capability
           else PIDResult.new 0),
          { c2 with previous_velocity := current_velocity })
      else
        let steering_factor := PIDController.calculate_steering_compensation steer_input
        let adjusted_desired_velocity := desired_velocity * steering_factor
        match obstacle_overlay c2 desired_velocity adjusted_desired_velocity
            current_velocity lidar_data with
        | Sum.inl result => (Except.ok result, c2)
        | Sum.inr modified_desired_velocity =>
          if delta_time ≤ 0 then
            if delta_time < -0.001 then
              (Except.error negativeDtMsg, c2)
            else
              let p := c2.compute_pid modified_desired_velocity current_velocity 0.001
              (Except.ok p.1, { p.2 with previous_velocity := current_velocity })
          else
            let p := c2.compute_pid modified_desired_velocity current_velocity delta_time
            (Except.ok p.1, { p.2 with previous_velocity := current_velocity })

/-- The seven-row actuator table exactly as the specification states it
in section 4.1, row boundaries included.  Modelled from the words of the
spec for comparison against the source mapping. -/
def spec_actuator_table (a : ℚ) : ℚ × ℚ :=
  if a ≤ -2.0 then (0, max (min (0.5 + (-a - 2.0) * 0.083) 1) 0)
  else if a ≤ -0.5 then (0, 0.15 + (-a - 0.5) * 0.233)
  else if a < 0 then (0, -a * 0.3)
  else if a = 0 then (0, 0)
  else if a ≤ 0.5 then (a * 0.4, 0)
  else if a ≤ 1.5 then (0.2 + (a - 0.5) * 0.4, 0)
  else (max (min (0.6 + (a - 1.5) * 0.267) 1) 0, 0)

/-- The actuator table with the boundary membership the source actually
implements: the hard-braking row applies only for a strictly below -2.0,
the moderate row covers -2.0 ≤ a ≤ -0.5. -/
def amended_actuator_table (a : ℚ) : ℚ × ℚ :=
  if a < -2.0 then (0, max (min (0.5 + (-a - 2.0) * 0.083) 1) 0)
  else if a ≤ -0.5 then (0, 0.15 + (-a - 0.5) * 0.233)
  else if a < 0 then (0, -a * 0.3)
  else if a = 0 then (0, 0)
  else if a ≤ 0.5 then (a * 0.4, 0)
  else if a ≤ 1.5 then (0.2 + (a - 0.5) * 0.4, 0)
  else (max (min (0.6 + (a - 1.5) * 0.267) 1) 0, 0)

/-- A controller mid-run: default configuration, one step already taken
at time 1/10 with the vehicle at 10 m/s. -/
def c3state : PIDController :=
  { PIDController.new 0.5 0.1 0.05 with previous_time := 1/10, previous_velocity := 10 }

/-- A controller mid-run at time 1, vehicle at 10 m/s, default configuration. -/
def cMid : PIDController :=
  { PIDController.new 0.5 0.1 0.05 with previous_time := 1, previous_velocity := 10 }

/-- A frame with a single corridor detection 2 m ahead. -/
def lidarNear : LidarMeasurement :=
  { channel_count := 1
    detections := [{ intensity := 0, point := { x := 2, y := 0, z := 1 } }]
    horizontal_angle := 0
    is_empty := false }

/-- A frame with a single corridor detection 12 m ahead. -/
def lidarMid : LidarMeasurement :=
  { channel_count := 1
    detections := [{ intensity := 0, point := { x := 12, y := 0, z := 1 } }]
    horizontal_angle := 0
    is_empty := false }

/-- A frame with a single corridor detection 13.8 m ahead. -/
def lidarFar : LidarMeasurement :=
  { channel_count := 1
    detections := [{ intensity := 0, point := { x := 138/10, y := 0, z := 1 } }]
    horizontal_angle := 0
    is_empty := false }

/-- The controller state after the manual-brake step of c3state at time
2/10: cruise suspended, clock stored. -/
def c3suspended : PIDController :=
  { c3state with previous_time := 2/10, cruise_suspended := true }

/-- The controller state right after the re-engagement evaluation of a
non-bootstrap, non-manual-brake step (pid_controller.rs lines 214-243):
previous_time stored, and cruise_suspended cleared exactly when the
re-engagement condition held. -/
def post_suspension_state (c : PIDController) (d v t : ℚ) : PIDController :=
  if can_reengage_after { c with previous_time := t } d v (t - c.previous_time) then
    { c with previous_time := t, cruise_suspended := false }
  else
    { c with previous_time := t }

/-! ## Shared lemmas -/

/-- The actuator mapping always yields throttle and brake inside [0,1]
with at least one of them zero. -/
theorem actuator_range (a : ℚ) :
    0 ≤ (PIDResult.acceleration_to_throttle_brake a).1 ∧
    (PIDResult.acceleration_to_throttle_brake a).1 ≤ 1 ∧
    0 ≤ (PIDResult.acceleration_to_throttle_brake a).2 ∧
    (PIDResult.acceleration_to_throttle_brake a).2 ≤ 1 ∧
    (PIDResult.acceleration_to_throttle_brake a).1 *
      (PIDResult.acceleration_to_throttle_brake a).2 = 0 := by
  unfold PIDResult.acceleration_to_throttle_brake
  by_cases h : a > 0
  · rw [if_pos h]
    refine ⟨le_max_right _ _, max_le (min_le_right _ _) (by norm_num), le_refl 0,
      by norm_num, mul_zero _⟩
  · rw [if_neg h]
    refine ⟨le_refl 0, by norm_num, le_max_right _ _,
      max_le (min_le_right _ _) (by norm_num), zero_mul _⟩

/-- Folding the closest-detection step from a seeded accumulator yields
a value that is at most the seed, is the seed or attained at a corridor
detection of the list, and is a lower bound of all corridor detections
of the list. -/
theorem closest_foldl_some (l : List LidarDetection) : ∀ m : ℚ,
    ∃ d, l.foldl closest_step (some m) = some d ∧ d ≤ m ∧
      (d = m ∨ ∃ det ∈ l, in_vehicle_path det.point = true ∧ det.point.x = d) ∧
      (∀ det ∈ l, in_vehicle_path det.point = true → d ≤ det.point.x) := by
  induction l with
  | nil =>
    intro m
    exact ⟨m, rfl, le_refl m, Or.inl rfl, by simp⟩
  | cons a t ih =>
    intro m
    by_cases hc : in_vehicle_path a.point = true
    · by_cases hlt : a.point.x < m
      · obtain ⟨d, hfold, hdm, hatt, hmin⟩ := ih a.point.x
        refine ⟨d, ?_, by linarith, ?_, ?_⟩
        · simpa [closest_step, hc, hlt] using hfold
        · rcases hatt with h | ⟨det, hdet, hp, hx⟩
          · exact Or.inr ⟨a, List.mem_cons_self a t, hc, h.symm⟩
          · exact Or.inr ⟨det, List.mem_cons_of_mem a hdet, hp, hx⟩
        · intro det hdet hp
          rcases List.mem_cons.mp hdet with heq | hmem
          · rw [heq]; exact hdm
          · exact hmin det hmem hp
      · obtain ⟨d, hfold, hdm, hatt, hmin⟩ := ih m
        refine ⟨d, ?_, hdm, ?_, ?_⟩
        · simpa [closest_step, hc, hlt] using hfold
        · rcases hatt with h | ⟨det, hdet, hp, hx⟩
          · exact Or.inl h
          · exact Or.inr ⟨det, List.mem_cons_of_mem a hdet, hp, hx⟩
        · intro det hdet hp
          rcases List.mem_cons.mp hdet with heq | hmem
          · rw [heq]; have := not_lt.mp hlt; linarith
          · exact hmin det hmem hp
    · obtain ⟨d, hfold, hdm, hatt, hmin⟩ := ih m
      refine ⟨d, ?_, hdm, ?_, ?_⟩
      · simpa [closest_step, hc] using hfold
      · rcases hatt with h | ⟨det, hdet, hp, hx⟩
        · exact Or.inl h
        · exact Or.inr ⟨det, List.mem_cons_of_mem a hdet, hp, hx⟩
      · intro det hdet hp
        rcases List.mem_cons.mp hdet with heq | hmem
        · exfalso; rw [heq] at hp; exact hc hp
        · exact hmin det hmem hp

/-- The closest-detection loop returns exactly the minimal forward
distance over the corridor detections of the frame, whenever that
minimum is attained. -/
theorem find_closest_eq_min (l : List LidarDetection) (d : ℚ)
    (hattain : ∃ det ∈ l, in_vehicle_path det.point = true ∧ det.point.x = d)
    (hmin : ∀ det ∈ l, in_vehicle_path det.point = true → d ≤ det.point.x) :
    find_closest l = some d := by
  induction l with
  | nil => simp at hattain
  | cons a t ih =>
    by_cases hc : in_vehicle_path a.point = true
    · have hstart : find_closest (a :: t) = t.foldl closest_step (some a.point.x) := by
        simp [find_closest, closest_step, hc]
      rw [hstart]
      obtain ⟨e, hfold, hem, hatt, hminf⟩ := closest_foldl_some t a.point.x
      rw [hfold]
      have hde : d ≤ e := by
        rcases hatt with h | ⟨det, hdet, hp, hx⟩
        · rw [h]; exact hmin a (List.mem_cons_self a t) hc
        · rw [← hx]; exact hmin det (List.mem_cons_of_mem a hdet) hp
      have hed : e ≤ d := by
        obtain ⟨det, hdet, hp, hx⟩ := hattain
        rcases List.mem_cons.mp hdet with heq | hmem
        · rw [← hx, heq]; exact hem
        · rw [← hx]; exact hminf det hmem hp
      rw [le_antisymm hed hde]
    · have hstart : find_closest (a :: t) = find_closest t := by
        simp [find_closest, closest_step, hc]
      rw [hstart]
      apply ih
      · obtain ⟨det, hdet, hp, hx⟩ := hattain
        rcases List.mem_cons.mp hdet with heq | hmem
        · exfalso; rw [heq] at hp; exact hc hp
        · exact ⟨det, hmem, hp, hx⟩
      · intro det hdet hp
        exact hmin det (List.mem_cons_of_mem a hdet) hp

/-- Reduction of the obstacle overlay on the emergency branch
(pid_controller.rs lines 301-315). -/
theorem overlay_emergency (c : PIDController) (d adj v : ℚ) (mm : LidarMeasurement) (dd : ℚ)
    (h5 : mm.is_empty = false)
    (h6 : find_closest mm.detections = some dd)
    (h7 : dd < c.emergency_stop_distance * max (v / 10.0) 1.0) :
    obstacle_overlay c d adj v (some mm) =
      Sum.inl (PIDResult.emergency
        (c.max_braking_acceleration *
          max (1 - dd / (c.emergency_stop_distance * max (v / 10.0) 1.0)) 0.5)
        emergencyReasonMsg) := by
  have hne : mm.detections ≠ [] := by
    intro h
    rw [h] at h6
    simp [find_closest] at h6
  have hne2 : mm.detections.isEmpty = false := by
    cases hl : mm.detections with
    | nil => exact absurd hl hne
    | cons a t => rfl
  simp [obstacle_overlay, h5, hne2, h6, h7]

/-- Reduction of the obstacle overlay on the slow-down branch when the
gentle-braking early return is not taken (pid_controller.rs lines
316-336): the PID stage is handed the raw desired velocity scaled by
the distance factor. -/
theorem overlay_slow_continue (c : PIDController) (d adj v : ℚ) (mm : LidarMeasurement) (dd : ℚ)
    (h5 : mm.is_empty = false)
    (h6 : find_closest mm.detections = some dd)
    (h7 : c.emergency_stop_distance * max (v / 10.0) 1.0 ≤ dd)
    (h8 : dd < c.slow_down_distance * max (v / 10.0) 1.0)
    (h9 : 1 - (dd - c.emergency_stop_distance * max (v / 10.0) 1.0) /
        (c.slow_down_distance * max (v / 10.0) 1.0 -
          c.emergency_stop_distance * max (v / 10.0) 1.0) ≤ 0.5) :
    obstacle_overlay c d adj v (some mm) =
      Sum.inr (d * max ((dd - c.emergency_stop_distance * max (v / 10.0) 1.0) /
        (c.slow_down_distance * max (v / 10.0) 1.0 -
          c.emergency_stop_distance * max (v / 10.0) 1.0)) 0.2) := by
  have hne : mm.detections ≠ [] := by
    intro h
    rw [h] at h6
    simp [find_closest] at h6
  have hne2 : mm.detections.isEmpty = false := by
    cases hl : mm.detections with
    | nil => exact absurd hl hne
    | cons a t => rfl
  have h7n : ¬ dd < c.emergency_stop_distance * max (v / 10.0) 1.0 := not_lt.mpr h7
  have h9n : ¬ 1 - (dd - c.emergency_stop_distance * max (v / 10.0) 1.0) /
      (c.slow_down_distance * max (v / 10.0) 1.0 -
        c.emergency_stop_distance * max (v / 10.0) 1.0) > 0.5 := not_lt.mpr h9
  simp [obstacle_overlay, h5, hne2, h6, h7n, h8, h9n]

/-- The obstacle overlay reads only the three emergency-configuration
fields of the controller. -/
theorem obstacle_overlay_config (c c' : PIDController)
    (hesd : c.emergency_stop_distance = c'.emergency_stop_distance)
    (hsdd : c.slow_down_distance = c'.slow_down_distance)
    (hmba : c.max_braking_acceleration = c'.max_braking_acceleration)
    (d adj v : ℚ) (lidar : Option LidarMeasurement) :
    obstacle_overlay c d adj v lidar = obstacle_overlay c' d adj v lidar := by
  cases lidar with
  | none => rfl
  | some mm => simp only [obstacle_overlay, hesd, hsdd, hmba]

/-! ## Claim theorems -/

/-- C10: compute is independent of its throttle_input argument: two
calls on equal controller states that differ only in throttle_input
return the same Result and the same post-state. -/
theorem c10_throttle_independent (c : PIDController) (d v t : ℚ)
    (lidar : Option LidarMeasurement) (st br th1 th2 : ℚ) :
    c.compute d v t lidar th1 st br = c.compute d v t lidar th2 st br := rfl

/-- C9: a freshly constructed or reset controller has previous_time 0,
and whenever previous_time = 0 the step returns Ok with acceleration 0
and modifies only previous_time (to the current time) and
previous_velocity (to the current velocity). -/
theorem c9_bootstrap (kp ki kd : ℚ) (c : PIDController) (d v t : ℚ)
    (lidar : Option LidarMeasurement) (th st br : ℚ) :
    (PIDController.new kp ki kd).previous_time = 0 ∧
    (PIDController.reset c).previous_time = 0 ∧
    (PIDResult.new 0).acceleration = 0 ∧
    (c.previous_time = 0 →
      c.compute d v t lidar th st br =
        (Except.ok (PIDResult.new 0),
          { c with previous_time := t, previous_velocity := v })) := by
  refine ⟨rfl, rfl, rfl, fun h => ?_⟩
  simp [PIDController.compute, h]

/-- C9 witness: the bootstrap step at a concrete fresh controller. -/
theorem c9_witness :
    (PIDController.new 0.5 0.1 0.05).compute 1 2 3 none 0 0 0 =
      (Except.ok (PIDResult.new 0),
        { PIDController.new 0.5 0.1 0.05 with previous_time := 3, previous_velocity := 2 }) :=
  (c9_bootstrap 0.5 0.1 0.05 (PIDController.new 0.5 0.1 0.05) 1 2 3 none 0 0 0).2.2.2 rfl

/-- C2: on any non-bootstrap step with brake input above 0.10, compute
returns Ok with the manual-brake result (acceleration = -brake_in * 3.0,
manual_brake_detected, cruise_should_disengage, no re-engage), suspends
cruise and stores the current velocity; no other input or state matters,
so this branch precedes suspension, steering, obstacle, timestep and PID
handling. -/
theorem c2_manual_brake (c : PIDController) (d v t : ℚ)
    (lidar : Option LidarMeasurement) (th st br : ℚ)
    (h1 : c.previous_time ≠ 0) (h2 : br > 0.1) :
    c.compute d v t lidar th st br =
      (Except.ok (PIDResult.manual_brake (-br * 3.0)),
        { c with previous_time := t, cruise_suspended := true, previous_velocity := v }) ∧
    (PIDResult.manual_brake (-br * 3.0)).manual_brake_detected = true ∧
    (PIDResult.manual_brake (-br * 3.0)).cruise_should_disengage = true ∧
    (PIDResult.manual_brake (-br * 3.0)).cruise_can_reengage = false ∧
    (PIDResult.manual_brake (-br * 3.0)).acceleration = -br * 3.0 := by
  refine ⟨?_, rfl, rfl, rfl, rfl⟩
  simp [PIDController.compute, h1, h2]

/-- C2 witness: a concrete manual-brake step at fifty percent pedal. -/
theorem c2_witness :
    cMid.compute 10 10 2 (some lidarNear) 0 0 0.5 =
      (Except.ok (PIDResult.manual_brake (-0.5 * 3.0)),
        { cMid with previous_time := 2, cruise_suspended := true, previous_velocity := 10 }) := by
  have h := c2_manual_brake cMid 10 10 2 (some lidarNear) 0 0 0.5
    (by norm_num [cMid, PIDController.new, PIDController.new_with_emergency_config])
    (by norm_num)
  exact h.1

/-- C7 counterexample: the result built for acceleration 0 (the
bootstrap and suspended-cruise result) has throttle = 0 and brake = 0,
so it is false that exactly one of throttle > 0 or brake > 0 holds in
every constructed PIDResult. -/
theorem c7_counterexample :
    (PIDResult.new 0).throttle = 0 ∧ (PIDResult.new 0).brake = 0 ∧
    ¬(((PIDResult.new 0).throttle > 0 ∧ (PIDResult.new 0).brake = 0) ∨
      ((PIDResult.new 0).brake > 0 ∧ (PIDResult.new 0).throttle = 0)) := by
  norm_num [PIDResult.new, PIDResult.acceleration_to_throttle_brake]

/-- C7 amended: every PIDResult built by new, emergency or manual_brake
has throttle and brake in [0,1] and at most one of them positive
(their product is zero); at acceleration 0 both are zero. -/
theorem c7_actuator_invariant_amended (a : ℚ) (reason : String) :
    (0 ≤ (PIDResult.new a).throttle ∧ (PIDResult.new a).throttle ≤ 1 ∧
      0 ≤ (PIDResult.new a).brake ∧ (PIDResult.new a).brake ≤ 1 ∧
      (PIDResult.new a).throttle * (PIDResult.new a).brake = 0) ∧
    (0 ≤ (PIDResult.emergency a reason).throttle ∧ (PIDResult.emergency a reason).throttle ≤ 1 ∧
      0 ≤ (PIDResult.emergency a reason).brake ∧ (PIDResult.emergency a reason).brake ≤ 1 ∧
      (PIDResult.emergency a reason).throttle * (PIDResult.emergency a reason).brake = 0) ∧
    (0 ≤ (PIDResult.manual_brake a).throttle ∧ (PIDResult.manual_brake a).throttle ≤ 1 ∧
      0 ≤ (PIDResult.manual_brake a).brake ∧ (PIDResult.manual_brake a).brake ≤ 1 ∧
      (PIDResult.manual_brake a).throttle * (PIDResult.manual_brake a).brake = 0) := by
  have h := actuator_range a
  exact ⟨⟨h.1, h.2.1, h.2.2.1, h.2.2.2.1, h.2.2.2.2⟩,
    ⟨h.1, h.2.1, h.2.2.1, h.2.2.2.1, h.2.2.2.2⟩,
    ⟨h.1, h.2.1, h.2.2.1, h.2.2.2.1, h.2.2.2.2⟩⟩

/-- C5: whenever the PID stage runs, the overspeed clamp applies exactly
when current velocity exceeds 115 percent of the (possibly modified)
target: the returned acceleration is -1.0 for an excess above 2.0 and
-excess * 0.8 otherwise, with the integral accumulator and error history
untouched; otherwise the normal PID law runs (error shift, integral
accumulation, derivative, output clamped to plus-minus 1.5). -/
theorem c5_overspeed_clamp (c : PIDController) (desired current dt : ℚ) :
    (current > desired * 1.15 →
      c.compute_pid desired current dt =
        (PIDResult.new (if current - desired > 2.0 then -1.0 else -(current - desired) * 0.8),
          c)) ∧
    (¬ current > desired * 1.15 →
      c.compute_pid desired current dt =
        (PIDResult.new (min (max (c.kp * (desired - current)
            + c.ki * (c.accumulated_error + (desired - current) * dt)
            + c.kd * (((desired - current) - c.velocity_error) / dt)) (-1.5)) 1.5),
          { c with previous_error := c.velocity_error,
                   velocity_error := desired - current,
                   accumulated_error := c.accumulated_error + (desired - current) * dt })) := by
  have hb : desired + desired * 0.15 = desired * 1.15 := by ring
  constructor
  · intro h
    unfold PIDController.compute_pid
    rw [if_pos (by rw [hb]; exact h)]
  · intro h
    unfold PIDController.compute_pid
    rw [if_neg (by rw [hb]; exact h)]

/-- C5 witness: overspeed by 5 m/s (excess above 2) gives exactly -1.0
and leaves the controller state unchanged. -/
theorem c5_witness :
    (PIDController.new 0.5 0.1 0.05).compute_pid 10 15 1 =
      (PIDResult.new (-1.0), PIDController.new 0.5 0.1 0.05) := by
  have h := (c5_overspeed_clamp (PIDController.new 0.5 0.1 0.05) 10 15 1).1 (by norm_num)
  norm_num at h ⊢
  exact h

/-- The source actuator mapping agrees pointwise with the corrected
piecewise table (hard-braking row strictly below -2.0). -/
theorem actuator_eq_amended (a : ℚ) :
    PIDResult.acceleration_to_throttle_brake a = amended_actuator_table a := by
  by_cases h0 : a > 0
  · have hn1 : ¬ a < -2.0 := not_lt.mpr (by linarith)
    have hn2 : ¬ a ≤ -0.5 := not_le.mpr (by linarith)
    have hn3 : ¬ a < 0 := not_lt.mpr (by linarith)
    have hn4 : ¬ a = 0 := by intro h; rw [h] at h0; exact lt_irrefl 0 h0
    by_cases h1 : a ≤ 0.5
    · simp only [PIDResult.acceleration_to_throttle_brake, amended_actuator_table,
        if_pos h0, if_neg hn1, if_neg hn2, if_neg hn3, if_neg hn4, if_pos h1]
      rw [min_eq_left (by linarith), max_eq_left (by linarith)]
    · by_cases h2 : a ≤ 1.5
      · simp only [PIDResult.acceleration_to_throttle_brake, amended_actuator_table,
          if_pos h0, if_neg hn1, if_neg hn2, if_neg hn3, if_neg hn4, if_neg h1, if_pos h2]
        rw [min_eq_left (by linarith), max_eq_left (by linarith)]
      · simp only [PIDResult.acceleration_to_throttle_brake, amended_actuator_table,
          if_pos h0, if_neg hn1, if_neg hn2, if_neg hn3, if_neg hn4, if_neg h1, if_neg h2]
  · have ha : a ≤ 0 := not_lt.mp h0
    by_cases hz : a = 0
    · subst hz
      norm_num [PIDResult.acceleration_to_throttle_brake, amended_actuator_table]
    · have haz : a < 0 := lt_of_le_of_ne ha hz
      by_cases hd1 : -a ≤ 0.5
      · by_cases hb : a ≤ -0.5
        · have hae : a = -0.5 := le_antisymm hb (by linarith)
          subst hae
          norm_num [PIDResult.acceleration_to_throttle_brake, amended_actuator_table]
        · have hn1 : ¬ a < -2.0 := not_lt.mpr (by linarith)
          simp only [PIDResult.acceleration_to_throttle_brake, amended_actuator_table,
            if_neg h0, if_pos hd1, if_neg hn1, if_neg hb, if_pos haz]
          rw [min_eq_left (by linarith), max_eq_left (by linarith)]
      · by_cases hd2 : -a ≤ 2.0
        · have hn1 : ¬ a < -2.0 := not_lt.mpr (by linarith)
          have hb : a ≤ -0.5 := by linarith
          simp only [PIDResult.acceleration_to_throttle_brake, amended_actuator_table,
            if_neg h0, if_neg hd1, if_pos hd2, if_neg hn1, if_pos hb]
          rw [min_eq_left (by linarith), max_eq_left (by linarith)]
        · have hn1 : a < -2.0 := by linarith
          simp only [PIDResult.acceleration_to_throttle_brake, amended_actuator_table,
            if_neg h0, if_neg hd1, if_neg hd2, if_pos hn1]

/-- C6 counterexample: at the boundary a = -2.0 the source mapping takes
the moderate-braking row and yields brake 0.4995, while the table of the
specification (whose hard-braking row includes -2.0) yields 0.5, so the
mapping neither matches the stated row membership nor is continuous at
the a = -2.0 boundary. -/
theorem c6_counterexample :
    PIDResult.acceleration_to_throttle_brake (-2.0) = (0, 0.4995) ∧
    spec_actuator_table (-2.0) = (0, 0.5) ∧
    ((0.4995 : ℚ) ≠ 0.5) := by
  norm_num [PIDResult.acceleration_to_throttle_brake, spec_actuator_table]

/-- C6 amended: the mapping equals the seven-row table with corrected
boundary membership (hard-braking row only for a strictly below -2.0,
moderate row covering -2.0 ≤ a ≤ -0.5), both outputs always lie in
[0,1], and the boundary values are throttle 0.20 at a = 0.5, throttle
0.60 at a = 1.5, brake 0.15 at a = -0.5, but brake 0.4995 (not 0.50) at
a = -2.0. -/
theorem c6_actuator_table_amended :
    (∀ a : ℚ, PIDResult.acceleration_to_throttle_brake a = amended_actuator_table a ∧
      0 ≤ (PIDResult.acceleration_to_throttle_brake a).1 ∧
      (PIDResult.acceleration_to_throttle_brake a).1 ≤ 1 ∧
      0 ≤ (PIDResult.acceleration_to_throttle_brake a).2 ∧
      (PIDResult.acceleration_to_throttle_brake a).2 ≤ 1) ∧
    PIDResult.acceleration_to_throttle_brake 0.5 = (0.2, 0) ∧
    PIDResult.acceleration_to_throttle_brake 1.5 = (0.6, 0) ∧
    PIDResult.acceleration_to_throttle_brake (-0.5) = (0, 0.15) ∧
    PIDResult.acceleration_to_throttle_brake (-2.0) = (0, 0.4995) := by
  refine ⟨fun a => ?_, ?_, ?_, ?_, ?_⟩
  · have h := actuator_range a
    exact ⟨actuator_eq_amended a, h.1, h.2.1, h.2.2.1, h.2.2.2.1⟩
  · norm_num [PIDResult.acceleration_to_throttle_brake]
  · norm_num [PIDResult.acceleration_to_throttle_brake]
  · norm_num [PIDResult.acceleration_to_throttle_brake]
  · norm_num [PIDResult.acceleration_to_throttle_brake]

/-- C1: on any non-bootstrap step (previous_time nonzero) with brake at
most 0.10 and cruise not suspended, if the frame is present, not flagged
empty, and dd is the minimal forward distance among its corridor
detections with dd below the velocity-scaled emergency threshold, then
compute returns Ok with the emergency result: emergency brake engaged,
acceleration = max_braking_acceleration * max(1 - dd/d_emerg, 0.5),
cruise_should_disengage true and cruise_can_reengage false. -/
theorem c1_emergency_brake (c : PIDController) (d v t : ℚ) (mm : LidarMeasurement)
    (th st br dd : ℚ)
    (h1 : c.previous_time ≠ 0) (h2 : br ≤ 0.1) (h3 : c.cruise_suspended = false)
    (h5 : mm.is_empty = false)
    (h6 : ∃ det ∈ mm.detections, in_vehicle_path det.point = true ∧ det.point.x = dd)
    (h7 : ∀ det ∈ mm.detections, in_vehicle_path det.point = true → dd ≤ det.point.x)
    (h8 : dd < c.emergency_stop_distance * max (v / 10.0) 1.0) :
    ∃ r, (c.compute d v t (some mm) th st br).1 = Except.ok r ∧
      r.emergency_brake_engaged = true ∧
      r.acceleration = c.max_braking_acceleration *
        max (1 - dd / (c.emergency_stop_distance * max (v / 10.0) 1.0)) 0.5 ∧
      r.cruise_should_disengage = true ∧
      r.cruise_can_reengage = false := by
  have hfc := find_closest_eq_min mm.detections dd h6 h7
  have hov := overlay_emergency { c with previous_time := t } d
    (d * PIDController.calculate_steering_compensation st) v mm dd h5 hfc h8
  have hbr : ¬ br > 0.1 := not_lt.mpr h2
  refine ⟨PIDResult.emergency
    (c.max_braking_acceleration *
      max (1 - dd / (c.emergency_stop_distance * max (v / 10.0) 1.0)) 0.5)
    emergencyReasonMsg, ?_, rfl, rfl, rfl, rfl⟩
  rw [h3] at hov
  simp [PIDController.compute, h1, hbr, h3, can_reengage_after, hov]

/-- C1 witness: default configuration at 10 m/s with an obstacle 2 m
ahead (threshold 3 m) engages the emergency brake with acceleration
-10 * max(1 - 2/3, 0.5) = -5. -/
theorem c1_witness :
    ∃ r, (cMid.compute 10 10 2 (some lidarNear) 0 0 0).1 = Except.ok r ∧
      r.emergency_brake_engaged = true ∧
      r.acceleration = cMid.max_braking_acceleration *
        max (1 - 2 / (cMid.emergency_stop_distance * max ((10:ℚ) / 10.0) 1.0)) 0.5 ∧
      r.cruise_should_disengage = true ∧
      r.cruise_can_reengage = false := by
  apply c1_emergency_brake cMid 10 10 2 lidarNear 0 0 0 2
  · norm_num [cMid, PIDController.new, PIDController.new_with_emergency_config]
  · norm_num
  · rfl
  · rfl
  · exact ⟨{ intensity := 0, point := { x := 2, y := 0, z := 1 } },
      by simp [lidarNear], by norm_num [in_vehicle_path], rfl⟩
  · intro det hdet hp
    simp [lidarNear] at hdet
    rw [hdet]
  · norm_num [cMid, PIDController.new, PIDController.new_with_emergency_config]

/-- C4 counterexample: with target 10, full right steering (adjusted
target 8) and an obstacle 13.8 m ahead (df = 0.9, 1 - df = 0.1), the
overlay hands the PID stage 10 * 0.9 = 9 — computed from the raw
target, not the steering-adjusted one — which exceeds the adjusted
target 8 and differs from adj_v * max(df, 0.2) = 7.2. -/
theorem c4_counterexample :
    obstacle_overlay cMid 10 (10 * PIDController.calculate_steering_compensation 1) 9
        (some lidarFar) = Sum.inr 9 ∧
    10 * PIDController.calculate_steering_compensation 1 = 8 ∧
    ¬((9:ℚ) ≤ 8) ∧
    (9:ℚ) ≠ 8 * max ((138/10 - 3) / (15 - 3)) 0.2 := by
  refine ⟨?_, ?_, by norm_num, ?_⟩
  · norm_num [obstacle_overlay, find_closest, closest_step, in_vehicle_path, lidarFar,
      cMid, PIDController.new, PIDController.new_with_emergency_config, max_def, abs]
  · norm_num [PIDController.calculate_steering_compensation, abs]
  · norm_num [max_def]

/-- C4 amended: in a step reaching the obstacle overlay whose nearest
corridor detection lies at distance dd with d_emerg ≤ dd < d_slow and
1 - df ≤ 0.5, the PID stage runs with modified target
desired_velocity * max(df, 0.2) — computed from the RAW target, not the
steering-adjusted one — and that modified target never exceeds the raw
target (for a nonnegative target), though it can exceed the
steering-adjusted one. -/
theorem c4_overlay_target_amended (c : PIDController) (d v t : ℚ) (mm : LidarMeasurement)
    (th st br dd df : ℚ)
    (h1 : c.previous_time ≠ 0) (h2 : br ≤ 0.1) (h3 : c.cruise_suspended = false)
    (h5 : mm.is_empty = false)
    (h6 : ∃ det ∈ mm.detections, in_vehicle_path det.point = true ∧ det.point.x = dd)
    (h7 : ∀ det ∈ mm.detections, in_vehicle_path det.point = true → dd ≤ det.point.x)
    (h8 : c.emergency_stop_distance * max (v / 10.0) 1.0 ≤ dd)
    (h9 : dd < c.slow_down_distance * max (v / 10.0) 1.0)
    (hdf : df = (dd - c.emergency_stop_distance * max (v / 10.0) 1.0) /
      (c.slow_down_distance * max (v / 10.0) 1.0 -
        c.emergency_stop_distance * max (v / 10.0) 1.0))
    (h10 : 1 - df ≤ 0.5)
    (h11 : 0 < t - c.previous_time) (h12 : 0 ≤ d) :
    c.compute d v t (some mm) th st br =
      (Except.ok ((PIDController.compute_pid { c with previous_time := t }
          (d * max df 0.2) v (t - c.previous_time)).1),
        { (PIDController.compute_pid { c with previous_time := t }
            (d * max df 0.2) v (t - c.previous_time)).2 with previous_velocity := v }) ∧
    d * max df 0.2 ≤ d := by
  have hfc := find_closest_eq_min mm.detections dd h6 h7
  have hov := overlay_slow_continue { c with previous_time := t } d
    (d * PIDController.calculate_steering_compensation st) v mm dd h5 hfc h8 h9
    (by rw [hdf] at h10; exact h10)
  have hbr : ¬ br > 0.1 := not_lt.mpr h2
  have hdt : ¬ t - c.previous_time ≤ 0 := not_le.mpr h11
  have hdt2 : ¬ t ≤ c.previous_time := not_le.mpr (by linarith)
  constructor
  · rw [hdf]
    rw [h3] at hov
    simp [PIDController.compute, h1, hbr, h3, can_reengage_after, hov, hdt, hdt2]
  · have hdfpos : (0:ℚ) < c.slow_down_distance * max (v / 10.0) 1.0 -
        c.emergency_stop_distance * max (v / 10.0) 1.0 := by linarith
    have hdflt : df < 1 := by
      rw [hdf, div_lt_one hdfpos]
      linarith
    have hmaxle : max df 0.2 ≤ 1 := max_le (le_of_lt hdflt) (by norm_num)
    calc d * max df 0.2 ≤ d * 1 := mul_le_mul_of_nonneg_left hmaxle h12
      _ = d := mul_one d

/-- C4 witness: default configuration, target 10, obstacle 12 m ahead at
9 m/s gives df = 3/4 and the PID stage runs with 10 * max(3/4, 0.2). -/
theorem c4_witness :
    (cMid.compute 10 9 2 (some lidarMid) 0 0 0).1 =
      Except.ok ((PIDController.compute_pid { cMid with previous_time := 2 }
        (10 * max (3/4) 0.2) 9 (2 - cMid.previous_time)).1) ∧
    (10:ℚ) * max (3/4) 0.2 ≤ 10 := by
  have h := c4_overlay_target_amended cMid 10 9 2 lidarMid 0 0 0 12 (3/4)
    (by norm_num [cMid, PIDController.new, PIDController.new_with_emergency_config])
    (by norm_num) rfl rfl
    (⟨{ intensity := 0, point := { x := 12, y := 0, z := 1 } },
      by simp [lidarMid], by norm_num [in_vehicle_path], rfl⟩)
    (by intro det hdet hp
        simp [lidarMid] at hdet
        rw [hdet])
    (by norm_num [cMid, PIDController.new, PIDController.new_with_emergency_config, max_def])
    (by norm_num [cMid, PIDController.new, PIDController.new_with_emergency_config, max_def])
    (by norm_num [cMid, PIDController.new, PIDController.new_with_emergency_config, max_def])
    (by norm_num)
    (by norm_num [cMid, PIDController.new, PIDController.new_with_emergency_config])
    (by norm_num)
  exact ⟨by rw [h.1], h.2⟩

/-- C3 (failing input): after a manual-brake step suspends cruise, the
first step meeting every re-engagement condition (no brake, speed at
target, moving, gentle observed acceleration) clears the suspension
internally but returns a plain result whose cruise_can_reengage is
false — not true as claimed — because compute clears cruise_suspended
before the branch that would annotate the result, so the dispatcher
(which in addition already set pid_active to false on disengagement)
never sees the flag and never publishes the engage message "1". -/
theorem c3_reengage_flag_bug :
    (c3state.compute 10 10 (2/10) none 0 0 (1/2)).2 = c3suspended ∧
    c3suspended.cruise_suspended = true ∧
    (c3suspended.compute 10 10 1 none 0 0 0).1 = Except.ok (PIDResult.new 0) ∧
    (PIDResult.new 0).cruise_can_reengage = false ∧
    (c3suspended.compute 10 10 1 none 0 0 0).2.cruise_suspended = false := by
  refine ⟨?_, rfl, ?_, rfl, ?_⟩
  · norm_num [PIDController.compute, c3state, c3suspended,
      PIDController.new, PIDController.new_with_emergency_config]
  · norm_num [PIDController.compute, PIDController.compute_pid, can_reengage_after,
      obstacle_overlay, PIDController.calculate_steering_compensation,
      c3suspended, c3state, PIDController.new, PIDController.new_with_emergency_config,
      PIDResult.new, PIDResult.acceleration_to_throttle_brake, max_def, min_def, abs]
  · norm_num [PIDController.compute, PIDController.compute_pid, can_reengage_after,
      obstacle_overlay, PIDController.calculate_steering_compensation,
      c3suspended, c3state, PIDController.new, PIDController.new_with_emergency_config,
      PIDResult.new, PIDResult.acceleration_to_throttle_brake, max_def, min_def, abs]

/-- compute_pid never changes the stored timestamp. -/
theorem compute_pid_previous_time (c : PIDController) (dv cv dt : ℚ) :
    (c.compute_pid dv cv dt).2.previous_time = c.previous_time := by
  unfold PIDController.compute_pid
  by_cases h : cv > dv + dv * 0.15 <;> simp [h]

/-- The re-engagement evaluation stores the step time. -/
theorem post_suspension_previous_time (c : PIDController) (d v t : ℚ) :
    (post_suspension_state c d v t).previous_time = t := by
  unfold post_suspension_state
  split_ifs <;> rfl

/-- The re-engagement evaluation does not touch the integral accumulator. -/
theorem post_suspension_accumulated_error (c : PIDController) (d v t : ℚ) :
    (post_suspension_state c d v t).accumulated_error = c.accumulated_error := by
  unfold post_suspension_state
  split_ifs <;> rfl

/-- The re-engagement evaluation does not touch the stored velocity. -/
theorem post_suspension_previous_velocity (c : PIDController) (d v t : ℚ) :
    (post_suspension_state c d v t).previous_velocity = c.previous_velocity := by
  unfold post_suspension_state
  split_ifs <;> rfl

/-- C8: on any step that passes the bootstrap, manual-brake, suspension
and obstacle early returns, compute fails with the
"Significant negative delta_time" diagnostic exactly when
dt = t - previous_time is below -0.001; previous_time is stored
unconditionally (also on the failing step), the failure leaves the
integral accumulator and previous_velocity unchanged, and for
-0.001 ≤ dt ≤ 0 the step proceeds normally with dt treated as 0.001. -/
theorem c8_timestep_guard (c : PIDController) (d v t : ℚ) (lidar : Option LidarMeasurement)
    (th st br m : ℚ)
    (h1 : c.previous_time ≠ 0) (h2 : br ≤ 0.1)
    (h3 : c.cruise_suspended = true →
      can_reengage_after { c with previous_time := t } d v (t - c.previous_time) = true)
    (h4 : obstacle_overlay (post_suspension_state c d v t) d
      (d * PIDController.calculate_steering_compensation st) v lidar = Sum.inr m) :
    (c.compute d v t lidar th st br).2.previous_time = t ∧
    ((∃ e, (c.compute d v t lidar th st br).1 = Except.error e) ↔
      t - c.previous_time < -0.001) ∧
    (t - c.previous_time < -0.001 →
      (c.compute d v t lidar th st br).1 = Except.error negativeDtMsg ∧
      (c.compute d v t lidar th st br).2.accumulated_error = c.accumulated_error ∧
      (c.compute d v t lidar th st br).2.previous_velocity = c.previous_velocity) ∧
    (-0.001 ≤ t - c.previous_time → t - c.previous_time ≤ 0 →
      c.compute d v t lidar th st br =
        (Except.ok (((post_suspension_state c d v t).compute_pid m v 0.001).1),
          { ((post_suspension_state c d v t).compute_pid m v 0.001).2
            with previous_velocity := v })) := by
  have hbr : ¬ br > 0.1 := not_lt.mpr h2
  have hstep : c.compute d v t lidar th st br =
      (if t - c.previous_time ≤ 0 then
        if t - c.previous_time < -0.001 then
          (Except.error negativeDtMsg, post_suspension_state c d v t)
        else
          (Except.ok (((post_suspension_state c d v t).compute_pid m v 0.001).1),
            { ((post_suspension_state c d v t).compute_pid m v 0.001).2
              with previous_velocity := v })
      else
        (Except.ok (((post_suspension_state c d v t).compute_pid m v
            (t - c.previous_time)).1),
          { ((post_suspension_state c d v t).compute_pid m v (t - c.previous_time)).2
            with previous_velocity := v })) := by
    by_cases hcs : c.cruise_suspended = true
    · have hcr := h3 hcs
      simp [post_suspension_state, hcr] at h4
      simp [PIDController.compute, post_suspension_state, h1, hbr, hcr, h4]
    · rw [Bool.not_eq_true] at hcs
      have hcr : can_reengage_after { c with previous_time := t } d v
          (t - c.previous_time) = false := by
        simp [can_reengage_after, hcs]
      simp [post_suspension_state, hcr, hcs] at h4
      simp [PIDController.compute, post_suspension_state, h1, hbr, hcs, hcr, h4]
  rw [hstep]
  refine ⟨?_, ?_, ?_, ?_⟩
  · split_ifs with hd2 hd1
    · simp [post_suspension_previous_time]
    · simp [compute_pid_previous_time, post_suspension_previous_time]
    · simp [compute_pid_previous_time, post_suspension_previous_time]
  · constructor
    · rintro ⟨e, he⟩
      by_cases hd2 : t - c.previous_time ≤ 0
      · by_cases hd1 : t - c.previous_time < -0.001
        · exact hd1
        · rw [if_pos hd2, if_neg hd1] at he
          simp at he
      · rw [if_neg hd2] at he
        simp at he
    · intro hd1
      have hd2 : t - c.previous_time ≤ 0 := le_of_lt (lt_trans hd1 (by norm_num))
      exact ⟨negativeDtMsg, by rw [if_pos hd2, if_pos hd1]⟩
  · intro hd1
    have hd2 : t - c.previous_time ≤ 0 := le_of_lt (lt_trans hd1 (by norm_num))
    rw [if_pos hd2, if_pos hd1]
    exact ⟨rfl, post_suspension_accumulated_error c d v t,
      post_suspension_previous_velocity c d v t⟩
  · intro hd1n hd2
    rw [if_pos hd2, if_neg (not_lt.mpr hd1n)]

/-- C8 witness: stepping the mid-run controller (previous_time 1) with
clock -1 gives dt = -2 < -0.001: the diagnostic failure, with the
timestamp stored and the integral accumulator untouched. -/
theorem c8_witness :
    (cMid.compute 10 10 (-1) none 0 0 0).1 = Except.error negativeDtMsg ∧
    (cMid.compute 10 10 (-1) none 0 0 0).2.previous_time = -1 ∧
    (cMid.compute 10 10 (-1) none 0 0 0).2.accumulated_error = cMid.accumulated_error := by
  have h := c8_timestep_guard cMid 10 10 (-1) none 0 0 0 10
    (by norm_num [cMid, PIDController.new, PIDController.new_with_emergency_config])
    (by norm_num)
    (by intro hcs
        simp [cMid, PIDController.new, PIDController.new_with_emergency_config] at hcs)
    (by norm_num [obstacle_overlay, PIDController.calculate_steering_compensation, abs])
  have hd : (-1:ℚ) - cMid.previous_time < -0.001 := by
    norm_num [cMid, PIDController.new, PIDController.new_with_emergency_config]
  exact ⟨(h.2.2.1 hd).1, h.1, (h.2.2.1 hd).2.1⟩
